import Mathlib

/-!
Verification of the CinemaGuide bot core (bot.py): a shallow embedding of
the pure logic of the message handler, the three provider response
normalizers, and the message paginator, together with theorems about them.
Python strings are modelled as Lean String (the paginator over List Char);
parsed JSON is the JsonVal inductive; the outbound HTTP request of a
provider is abstracted by an HttpResult input describing the outcome that
requests.get delivered; Python exceptions that the code does not catch are
modelled with Except PyExc.  String literals of the source are kept in the
original Russian; the specification renders them in English translation.
-/

/-- Whitespace characters removed by Python str.strip (the ASCII subset,
which covers every message the claims exercise). -/
def pyIsSpace (c : Char) : Bool :=
  c == ' ' || c == '\t' || c == '\n' || c == '\r' || c == '\x0b' || c == '\x0c'

/-- Python str.strip over a character list. -/
def stripChars (l : List Char) : List Char :=
  ((l.dropWhile pyIsSpace).reverse.dropWhile pyIsSpace).reverse

/-- Python str.strip. -/
def pyStrip (s : String) : String := String.mk (stripChars s.data)

/-- Python str.lower for the alphabets this bot handles (ASCII and the
Russian block, which is all the keyword test needs); other characters are
left unchanged. -/
def charLower (c : Char) : Char :=
  if 'A' ≤ c ∧ c ≤ 'Z' then Char.ofNat (c.toNat + 32)
  else if 'А' ≤ c ∧ c ≤ 'Я' then Char.ofNat (c.toNat + 32)
  else if c = 'Ё' then 'ё'
  else c

/-- Python str.lower. -/
def pyLower (s : String) : String := String.mk (s.data.map charLower)

/-- Python substring test (the in operator on strings). -/
def containsSub (needle : List Char) : List Char → Bool
  | [] => needle.isEmpty
  | c :: rest => needle.isPrefixOf (c :: rest) || containsSub needle rest

/-- Python str.replace (all occurrences, left to right), with fuel equal to
the length of the subject string; the pattern is always the non-empty
trigger keyword here, so the Python special case of an empty pattern is
not modelled. -/
def pyReplaceFuel : Nat → List Char → List Char → List Char → List Char
  | 0, s, _, _ => s
  | fuel + 1, s, old, new =>
    match s with
    | [] => []
    | c :: rest =>
      if old ≠ [] ∧ old.isPrefixOf (c :: rest) then
        new ++ pyReplaceFuel fuel ((c :: rest).drop old.length) old new
      else
        c :: pyReplaceFuel fuel rest old new

/-- Python str.replace. -/
def pyReplace (s old new : String) : String :=
  String.mk (pyReplaceFuel s.data.length s.data old.data new.data)

/-- Python str.split on a single separator character. -/
def splitOnChar (sep : Char) : List Char → List (List Char)
  | [] => [[]]
  | c :: rest =>
    match splitOnChar sep rest with
    | [] => [[c]]
    | l :: ls => if c = sep then [] :: l :: ls else (c :: l) :: ls

/-- Python str.rfind for a character: auxiliary scan keeping the index of
the most recent occurrence seen so far. -/
def pyRfindAux (c : Char) : List Char → Nat → Option Nat → Option Nat
  | [], _, acc => acc
  | x :: xs, i, acc => pyRfindAux c xs (i + 1) (if x = c then some i else acc)

/-- Python str.rfind for a character: index of the last occurrence, none
when the character does not occur (Python returns -1 there). -/
def pyRfind (c : Char) (l : List Char) : Option Nat := pyRfindAux c l 0 none

/-- Python str.join over a list of strings. -/
def pyJoinSep (sep : String) : List String → String
  | [] => ""
  | [x] => x
  | x :: xs => x ++ sep ++ pyJoinSep sep xs

/-- One run of the while loop of split_message (bot.py lines 160-172), with
explicit fuel: each loop iteration consumes one unit, and none is returned
when the fuel runs out before the loop exits.  The source truncates the
window at the last newline it contains (part = part[:last_newline]) and
then drops len(part) characters of the message, so a window whose only
newline sits at index 0 makes no progress at all. -/
def split_message_fuel : Nat → List Char → Nat → Option (List (List Char))
  | 0, message, _ => if message = [] then some [] else none
  | fuel + 1, message, maxLength =>
    if message = [] then some []
    else if message.length ≤ maxLength then some [message]
    else
      let part := message.take maxLength
      let part := match pyRfind '\n' part with
        | some lastNewline => part.take lastNewline
        | none => part
      (split_message_fuel fuel (message.drop part.length) maxLength).map
        (fun rest => part :: rest)

/-- The paginator split_message: fuel one greater than the length of the
message suffices for every terminating run of the loop, because a
terminating run shortens the message on every iteration; none therefore
means the Python loop never exits. -/
def split_message (message : List Char) (maxLength : Nat) : Option (List (List Char)) :=
  split_message_fuel (message.length + 1) message maxLength

/-- Parsed JSON values as Python json.loads delivers them (object keys are
unique after parsing).  Floating point numbers do not occur in the fields
the bot reads, so numbers are modelled as integers. -/
inductive JsonVal where
  | null
  | bool (b : Bool)
  | num (n : Int)
  | str (s : String)
  | arr (items : List JsonVal)
  | obj (fields : List (String × JsonVal))

/-- Python exceptions that bot.py does not catch and therefore propagates
to its caller (the telegram framework error handler). -/
inductive PyExc where
  | attributeError
  | typeError
deriving DecidableEq

/-- First-match association lookup on the fields of a parsed JSON object. -/
def jsonLookup : List (String × JsonVal) → String → Option JsonVal
  | [], _ => none
  | (k, v) :: rest, key => if k = key then some v else jsonLookup rest key

/-- Python dict.get: an AttributeError escapes when the receiver is not a
dict (that is what .get raises on a list, a string, a number or None). -/
def pyGet (v : JsonVal) (key : String) : Except PyExc (Option JsonVal) :=
  match v with
  | .obj fields => .ok (jsonLookup fields key)
  | _ => .error .attributeError

/-- Python truthiness of a JSON-derived value. -/
def pyTruthyV : JsonVal → Bool
  | .null => false
  | .bool b => b
  | .num n => !(n == 0)
  | .str s => !(s == "")
  | .arr l => !l.isEmpty
  | .obj l => !l.isEmpty

/-- Python truthiness of a dict.get result (None when the key is absent). -/
def pyTruthy : Option JsonVal → Bool
  | none => false
  | some v => pyTruthyV v

/-- Python equality test of a dict.get result against a string literal. -/
def pyEqStr (v : Option JsonVal) (s : String) : Bool :=
  match v with
  | some (.str t) => t == s
  | _ => false

/-- Python iteration over a JSON-derived value: lists yield their items,
strings their characters, dicts their keys; anything else raises a
TypeError. -/
def pyIter : JsonVal → Except PyExc (List JsonVal)
  | .arr l => .ok l
  | .str s => .ok (s.data.map fun c => JsonVal.str (String.mk [c]))
  | .obj fields => .ok (fields.map fun kv => JsonVal.str kv.1)
  | _ => .error .typeError

/-- Python repr of a JSON-derived value, with structural fuel (the string
escaping Python performs inside reprs is not reproduced; no code path a
claim exercises renders a non-string value). -/
def pyReprFuel : Nat → JsonVal → String
  | 0, _ => ""
  | fuel + 1, v =>
    match v with
    | .null => "None"
    | .bool true => "True"
    | .bool false => "False"
    | .num n => toString n
    | .str s => "\x27" ++ s ++ "\x27"
    | .arr l => "[" ++ pyJoinSep ", " (l.map (pyReprFuel fuel)) ++ "]"
    | .obj l =>
      "\x7b" ++ pyJoinSep ", " (l.map fun kv => "\x27" ++ kv.1 ++ "\x27: " ++ pyReprFuel fuel kv.2) ++ "\x7d"

mutual

/-- Structural size of a JSON value, used as an adequate fuel bound for the
repr rendering. -/
def jsonSize : JsonVal → Nat
  | .null => 1
  | .bool _ => 1
  | .num _ => 1
  | .str _ => 1
  | .arr l => 1 + jsonSizeArr l
  | .obj l => 1 + jsonSizeObj l

/-- Combined size of the items of a JSON array. -/
def jsonSizeArr : List JsonVal → Nat
  | [] => 0
  | v :: rest => jsonSize v + jsonSizeArr rest

/-- Combined size of the field values of a JSON object. -/
def jsonSizeObj : List (String × JsonVal) → Nat
  | [] => 0
  | (_, v) :: rest => jsonSize v + jsonSizeObj rest

end

/-- Python str() as f-string interpolation applies it. -/
def pyStr : JsonVal → String
  | .str s => s
  | v => pyReprFuel (jsonSize v) v

/-- Python expression date.split(Chr(45))[0]: the text before the first
dash; raises AttributeError when the receiver is not a string. -/
def pySplitDashHead : JsonVal → Except PyExc String
  | .str s => .ok (String.mk ((splitOnChar '-' s.data).headD []))
  | _ => .error .attributeError

/-- Conversion of the iterated elements for str.join: every element must
itself be a string, otherwise Python raises a TypeError. -/
def strListOf : List JsonVal → Except PyExc (List String)
  | [] => .ok []
  | JsonVal.str s :: rest =>
    match strListOf rest with
    | .error e => .error e
    | .ok l => .ok (s :: l)
  | _ :: _ => .error .typeError

/-- Python sep.join(v) for a JSON-derived v. -/
def pyJoinVal (sep : String) (v : JsonVal) : Except PyExc String :=
  match pyIter v with
  | .error e => .error e
  | .ok elems =>
    match strListOf elems with
    | .error e => .error e
    | .ok strs => .ok (pyJoinSep sep strs)

/-- Body of an HTTP response: either response.json() parses it, or it
raises (malformed JSON; requests raises its JSONDecodeError, a subclass of
RequestException, so the providers catch it). -/
inductive JsonBody where
  | malformed
  | parsed (data : JsonVal)

/-- Outcome of one requests.get call, as the pure normalization logic sees
it: either the transport raised (connection error or timeout, both
requests.RequestException), or a response arrived with a status code and a
body.  response.raise_for_status() raises exactly for status codes in the
range 400 to 599. -/
inductive HttpResult where
  | transportError
  | response (status : Nat) (body : JsonBody)

/-- One media entry as the code stores it: the poster reference (OMDb and
Google Books keep the raw JSON value, TMDb builds a URL string) together
with its caption. -/
abbrev Media := JsonVal × String

/-- Fixed user-facing error sentinel of the providers (the spec renders it
in English as: An error occurred while fetching data; try again later.). -/
def errorSentinel : String := "Произошла ошибка при получении данных. Попробуйте снова позже."

/-- Fixed not-found sentinel (spec rendering: Sorry, nothing found.). -/
def notFoundSentinel : String := "Извините, ничего не найдено."

/-- Base URL for TMDb poster images (bot.py line 29). -/
def TMDB_IMAGE_BASE_URL : String := "https://image.tmdb.org/t/p/w500"

/-- Loop over the OMDb Search items (bot.py lines 76-82): one summary line
per item; a media entry when the poster value is truthy and not the
provider sentinel string N/A. -/
def omdb_items_loop : List JsonVal → Except PyExc (List String × List Media)
  | [] => .ok ([], [])
  | item :: rest =>
    match pyGet item "Title" with
    | .error e => .error e
    | .ok titleOpt =>
      match pyGet item "Year" with
      | .error e => .error e
      | .ok yearOpt =>
        match pyGet item "Poster" with
        | .error e => .error e
        | .ok posterOpt =>
          match omdb_items_loop rest with
          | .error e => .error e
          | .ok (recs, media) =>
            let line := pyStr (titleOpt.getD (.str "Название не указано")) ++ " ("
              ++ pyStr (yearOpt.getD (.str "Год выпуска не указан")) ++ ")"
            .ok (line :: recs,
              if pyTruthy posterOpt && !pyEqStr posterOpt "N/A" then
                (posterOpt.getD .null, line) :: media
              else media)

/-- get_recommendations_omdb (bot.py lines 65-88) as a function of the
outcome of its one HTTP request. -/
def get_recommendations_omdb (o : HttpResult) : Except PyExc (String × List Media) :=
  match o with
  | .transportError => .ok (errorSentinel, [])
  | .response status body =>
    if 400 ≤ status ∧ status < 600 then .ok (errorSentinel, [])
    else
      match body with
      | .malformed => .ok (errorSentinel, [])
      | .parsed data =>
        match pyGet data "Response" with
        | .error e => .error e
        | .ok respOpt =>
          if pyEqStr respOpt "True" then
            match pyGet data "Search" with
            | .error e => .error e
            | .ok searchOpt =>
              match pyIter (searchOpt.getD (.arr [])) with
              | .error e => .error e
              | .ok items =>
                match omdb_items_loop items with
                | .error e => .error e
                | .ok (recs, media) => .ok (pyJoinSep "\n" recs, media)
          else .ok (notFoundSentinel, [])

/-- Loop over the TMDb results (bot.py lines 102-118): movie and tv items
produce a labelled summary line (year is the text before the first dash of
the date when the date is truthy) and, when the poster path is truthy, a
media entry whose URL prepends the image base; items of any other
media_type are skipped entirely. -/
def tmdb_items_loop : List JsonVal → Except PyExc (List String × List Media)
  | [] => .ok ([], [])
  | item :: rest =>
    match pyGet item "media_type" with
    | .error e => .error e
    | .ok mtOpt =>
      if pyEqStr mtOpt "movie" then
        match pyGet item "title" with
        | .error e => .error e
        | .ok titleOpt =>
          match pyGet item "release_date" with
          | .error e => .error e
          | .ok rdOpt =>
            match pyGet item "poster_path" with
            | .error e => .error e
            | .ok posterOpt =>
              let dateVal := rdOpt.getD (.str "Год выпуска не указан")
              match
                (if pyTruthyV dateVal then pySplitDashHead dateVal
                 else .ok "Год выпуска не указан") with
              | .error e => .error e
              | .ok year =>
                match tmdb_items_loop rest with
                | .error e => .error e
                | .ok (recs, media) =>
                  let line := "Фильм: " ++ pyStr (titleOpt.getD (.str "Название не указано"))
                    ++ " (" ++ year ++ ")"
                  .ok (line :: recs,
                    if pyTruthy posterOpt then
                      (.str (TMDB_IMAGE_BASE_URL ++ pyStr (posterOpt.getD .null)), line) :: media
                    else media)
      else if pyEqStr mtOpt "tv" then
        match pyGet item "name" with
        | .error e => .error e
        | .ok nameOpt =>
          match pyGet item "first_air_date" with
          | .error e => .error e
          | .ok fadOpt =>
            match pyGet item "poster_path" with
            | .error e => .error e
            | .ok posterOpt =>
              let dateVal := fadOpt.getD (.str "Год выпуска не указан")
              match
                (if pyTruthyV dateVal then pySplitDashHead dateVal
                 else .ok "Год выпуска не указан") with
              | .error e => .error e
              | .ok year =>
                match tmdb_items_loop rest with
                | .error e => .error e
                | .ok (recs, media) =>
                  let line := "Сериал: " ++ pyStr (nameOpt.getD (.str "Название не указано"))
                    ++ " (" ++ year ++ ")"
                  .ok (line :: recs,
                    if pyTruthy posterOpt then
                      (.str (TMDB_IMAGE_BASE_URL ++ pyStr (posterOpt.getD .null)), line) :: media
                    else media)
      else tmdb_items_loop rest

/-- get_recommendations_tmdb (bot.py lines 91-124) as a function of the
outcome of its one HTTP request; success is the truthiness of the results
field, not an explicit status field. -/
def get_recommendations_tmdb (o : HttpResult) : Except PyExc (String × List Media) :=
  match o with
  | .transportError => .ok (errorSentinel, [])
  | .response status body =>
    if 400 ≤ status ∧ status < 600 then .ok (errorSentinel, [])
    else
      match body with
      | .malformed => .ok (errorSentinel, [])
      | .parsed data =>
        match pyGet data "results" with
        | .error e => .error e
        | .ok resultsOpt =>
          if pyTruthy resultsOpt then
            match pyIter (resultsOpt.getD (.arr [])) with
            | .error e => .error e
            | .ok items =>
              match tmdb_items_loop items with
              | .error e => .error e
              | .ok (recs, media) => .ok (pyJoinSep "\n" recs, media)
          else .ok (notFoundSentinel, [])

/-- Loop over the Google Books items (bot.py lines 138-147): every item
yields a summary line built from the nested volumeInfo object; a media
entry when the nested thumbnail is truthy. -/
def books_items_loop : List JsonVal → Except PyExc (List String × List Media)
  | [] => .ok ([], [])
  | item :: rest =>
    match pyGet item "volumeInfo" with
    | .error e => .error e
    | .ok viOpt =>
      let volume_info := viOpt.getD (.obj [])
      match pyGet volume_info "title" with
      | .error e => .error e
      | .ok titleOpt =>
        match pyGet volume_info "authors" with
        | .error e => .error e
        | .ok authorsOpt =>
          match
            (if pyTruthy authorsOpt then
              pyJoinVal ", " (authorsOpt.getD (.arr [.str "Автор не указан"]))
             else .ok "Автор не указан") with
          | .error e => .error e
          | .ok authors =>
            match pyGet volume_info "publishedDate" with
            | .error e => .error e
            | .ok pdOpt =>
              match pyGet volume_info "imageLinks" with
              | .error e => .error e
              | .ok ilOpt =>
                match pyGet (ilOpt.getD (.obj [])) "thumbnail" with
                | .error e => .error e
                | .ok thumbOpt =>
                  match books_items_loop rest with
                  | .error e => .error e
                  | .ok (recs, media) =>
                    let line := "Книга: " ++ pyStr (titleOpt.getD (.str "Название не указано"))
                      ++ " (" ++ pyStr (pdOpt.getD (.str "Год издания не указан"))
                      ++ ") - Авторы: " ++ authors
                    .ok (line :: recs,
                      if pyTruthy thumbOpt then (thumbOpt.getD .null, line) :: media
                      else media)

/-- get_recommendations_books (bot.py lines 126-153) as a function of the
outcome of its one HTTP request; success is the truthiness of the items
field. -/
def get_recommendations_books (o : HttpResult) : Except PyExc (String × List Media) :=
  match o with
  | .transportError => .ok (errorSentinel, [])
  | .response status body =>
    if 400 ≤ status ∧ status < 600 then .ok (errorSentinel, [])
    else
      match body with
      | .malformed => .ok (errorSentinel, [])
      | .parsed data =>
        match pyGet data "items" with
        | .error e => .error e
        | .ok itemsOpt =>
          if pyTruthy itemsOpt then
            match pyIter (itemsOpt.getD (.arr [])) with
            | .error e => .error e
            | .ok items =>
              match books_items_loop items with
              | .error e => .error e
              | .ok (recs, media) => .ok (pyJoinSep "\n" recs, media)
          else .ok (notFoundSentinel, [])

/-- Trigger keyword of the recommendation path (bot.py line 177). -/
def recommendKeyword : String := "рекомендации"

/-- Provider label line for the OMDb section of the aggregate reply. -/
def omdbLabel : String := "Рекомендации с OMDb API:"

/-- Provider label line for the TMDb section of the aggregate reply. -/
def tmdbLabel : String := "Рекомендации с TMDb API:"

/-- Provider label line for the Google Books section of the aggregate reply. -/
def booksLabel : String := "Рекомендации с Google Books API:"

/-- What handle_message decides to do for one incoming text message: the
prompt for an empty query, a recommendation reply carrying the query it
sent to the providers together with the reply text and media to deliver,
the nothing-found fallback, or the generative fallback path with the
prompt it forwards. -/
inductive HandlerResult where
  | emptyQueryPrompt
  | recommendationReply (query : String) (response : String) (media : List Media)
  | noResults (query : String)
  | mistralPath (prompt : String)

/-- handle_message (bot.py lines 175-229) as a function of the incoming
text and of the outcomes of the three provider requests: the keyword test
is on the lowercased message, the keyword removal on the original message;
an empty stripped query short-circuits before any provider runs; each
provider body is included, preceded by its label line, only when it is
non-empty, and the media lists are concatenated in the same provider
order; the fallback reply happens only when the built response is empty. -/
def handle_message (user_message : String) (oOmdb oTmdb oBooks : HttpResult) :
    Except PyExc HandlerResult :=
  if containsSub recommendKeyword.data (pyLower user_message).data then
    let query := pyStrip (pyReplace user_message recommendKeyword "")
    if query = "" then .ok .emptyQueryPrompt
    else
      match get_recommendations_omdb oOmdb with
      | .error e => .error e
      | .ok (t1, m1) =>
        match get_recommendations_tmdb oTmdb with
        | .error e => .error e
        | .ok (t2, m2) =>
          match get_recommendations_books oBooks with
          | .error e => .error e
          | .ok (t3, m3) =>
            let response :=
              (if t1 = "" then "" else omdbLabel ++ "\n" ++ t1 ++ "\n\n")
              ++ ((if t2 = "" then "" else tmdbLabel ++ "\n" ++ t2 ++ "\n\n")
                ++ (if t3 = "" then "" else booksLabel ++ "\n" ++ t3 ++ "\n\n"))
            let media :=
              (if t1 = "" then [] else m1)
              ++ ((if t2 = "" then [] else m2)
                ++ (if t3 = "" then [] else m3))
            if response = "" then .ok (.noResults query)
            else .ok (.recommendationReply query response media)
  else .ok (.mistralPath user_message)

/-- Character stream of the aggregate reply text, presented as a fold over
the labelled provider sections; used to reason about label occurrences. -/
def sectionsText : List (String × String) → List Char
  | [] => []
  | (lab, t) :: rest =>
    (if t = "" then "" else lab ++ "\n" ++ t ++ "\n\n").data ++ sectionsText rest

/-- A character that does not occur in the scanned list never changes the
rfind accumulator. -/
theorem pyRfindAux_eq_acc (c : Char) :
    ∀ l : List Char, c ∉ l → ∀ i acc, pyRfindAux c l i acc = acc := by
  intro l
  induction l with
  | nil => intro _ i acc; rfl
  | cons x xs ih =>
    intro h i acc
    have hx : ¬x = c := fun hxc => h (hxc ▸ List.mem_cons_self x xs)
    have hxs : c ∉ xs := fun hm => h (List.mem_cons_of_mem x hm)
    simp [pyRfindAux, hx, ih hxs]

/-- rfind finds nothing in a list that does not contain the character. -/
theorem pyRfind_eq_none {c : Char} {l : List Char} (h : c ∉ l) :
    pyRfind c l = none :=
  pyRfindAux_eq_acc c l h 0 none

/-- One loop iteration of split_message on a message longer than the
window with no newline in the window: the full window is emitted and
exactly maxLength characters are consumed. -/
theorem split_message_fuel_step_no_newline (fuel maxLength : Nat) (message : List Char)
    (hlen : maxLength < message.length) (hnl : '\n' ∉ message.take maxLength) :
    split_message_fuel (fuel + 1) message maxLength
      = (split_message_fuel fuel (message.drop maxLength) maxLength).map
          (fun rest => message.take maxLength :: rest) := by
  have hne : message ≠ [] := by
    intro h
    rw [h] at hlen
    simp at hlen
  have htl : (message.take maxLength).length = maxLength := by
    rw [List.length_take]
    omega
  simp only [split_message_fuel, if_neg hne, if_neg (by omega : ¬message.length ≤ maxLength)]
  rw [pyRfind_eq_none hnl, htl]

/-- The final loop iteration of split_message: a non-empty message that
fits in the window is emitted whole. -/
theorem split_message_fuel_step_last (fuel maxLength : Nat) (message : List Char)
    (hne : message ≠ []) (hlen : message.length ≤ maxLength) :
    split_message_fuel (fuel + 1) message maxLength = some [message] := by
  simp only [split_message_fuel, if_neg hne, if_pos hlen]

/-- C1: the paginator is NOT total.  On the message that starts with a
newline whose window holds no further newline, rfind returns index 0, the
part is truncated to the empty string, and zero characters are consumed:
the while loop of split_message runs forever.  No amount of fuel makes the
loop exit on the three-character input with max_length 2 that starts with
a newline. -/
theorem split_message_diverges_on_leading_newline :
    ∀ fuel, split_message_fuel fuel "\nab".data 2 = none := by
  intro fuel
  induction fuel with
  | zero => rfl
  | succ n ih =>
    have step : split_message_fuel (n + 1) "\nab".data 2
        = (split_message_fuel n "\nab".data 2).map (fun rest => [] :: rest) := rfl
    rw [step, ih]
    rfl

/-- C3 counterexample: on the input abcde-fghij-klmno (newline separated)
with max_length 10 the paginator does NOT return the three bare words:
the cut falls before each newline, never absorbing it. -/
theorem split_message_cut_counterexample :
    split_message "abcde\nfghij\nklmno".data 10
      ≠ some ["abcde".data, "fghij".data, "klmno".data] := by
  decide

/-- C3 amended: the paginator on that input returns the first five-letter
chunk and then two chunks that each begin with the newline before which
the previous cut fell. -/
theorem split_message_cut_result :
    split_message "abcde\nfghij\nklmno".data 10
      = some ["abcde".data, "\nfghij".data, "\nklmno".data] := by
  decide

/-- Every chunk a terminating run of the split loop emits is at most
maxLength characters long, whatever the fuel. -/
theorem split_message_fuel_chunk_length_le :
    ∀ (fuel : Nat) (message : List Char) (maxLength : Nat) (parts : List (List Char)),
      split_message_fuel fuel message maxLength = some parts →
      ∀ p ∈ parts, p.length ≤ maxLength := by
  intro fuel
  induction fuel with
  | zero =>
    intro message maxLength parts h p hp
    by_cases hm : message = []
    · simp [split_message_fuel, hm] at h
      subst h
      simp at hp
    · simp [split_message_fuel, hm] at h
  | succ n ih =>
    intro message maxLength parts h p hp
    by_cases hm : message = []
    · simp [split_message_fuel, hm] at h
      subst h
      simp at hp
    · by_cases hl : message.length ≤ maxLength
      · simp [split_message_fuel, hm, hl] at h
        subst h
        simp at hp
        rw [hp]
        exact hl
      · simp only [split_message_fuel, if_neg hm, if_neg hl] at h
        cases hrf : pyRfind '\n' (message.take maxLength) with
        | none =>
          simp only [hrf] at h
          cases hrec : split_message_fuel n
              (message.drop (message.take maxLength).length) maxLength with
          | none => rw [hrec] at h; simp at h
          | some rest =>
            rw [hrec] at h
            have h2 : parts = message.take maxLength :: rest := (Option.some.inj h).symm
            subst h2
            rcases List.mem_cons.mp hp with hp1 | hp2
            · rw [hp1, List.length_take]
              omega
            · exact ih _ _ _ hrec p hp2
        | some i =>
          simp only [hrf] at h
          cases hrec : split_message_fuel n
              (message.drop ((message.take maxLength).take i).length) maxLength with
          | none => rw [hrec] at h; simp at h
          | some rest =>
            rw [hrec] at h
            have h2 : parts = (message.take maxLength).take i :: rest := (Option.some.inj h).symm
            subst h2
            rcases List.mem_cons.mp hp with hp1 | hp2
            · rw [hp1, List.length_take, List.length_take]
              omega
            · exact ih _ _ _ hrec p hp2

/-- C8: every chunk in the sequence the paginator returns has length at
most max_length (stated for every terminating run; the paginator does not
terminate on every input, see the totality theorem). -/
theorem split_message_chunk_length_le (message : List Char) (maxLength : Nat)
    (parts : List (List Char)) (h : split_message message maxLength = some parts) :
    ∀ p ∈ parts, p.length ≤ maxLength :=
  split_message_fuel_chunk_length_le _ _ _ _ h

/-- Witness for the chunk length bound at a concrete input. -/
theorem split_message_chunk_length_le_witness :
    split_message "abc".data 2 = some [['a', 'b'], ['c']]
      ∧ ∀ p ∈ [['a', 'b'], ['c']], List.length p ≤ 2 :=
  ⟨by decide, split_message_chunk_length_le "abc".data 2 [['a', 'b'], ['c']] (by decide)⟩

/-- C4: on any 10000-character message with no newline, the paginator with
max_length 4096 terminates with exactly the three successive windows of
4096, 4096 and 1808 characters, each at most 4096 long, whose
concatenation restores the message. -/
theorem split_message_10000_three_chunks (msg : List Char)
    (hlen : msg.length = 10000) (hnl : '\n' ∉ msg) :
    split_message msg 4096
        = some [msg.take 4096, (msg.drop 4096).take 4096, msg.drop 8192]
      ∧ (msg.take 4096).length ≤ 4096
      ∧ ((msg.drop 4096).take 4096).length ≤ 4096
      ∧ (msg.drop 8192).length ≤ 4096
      ∧ msg.take 4096 ++ ((msg.drop 4096).take 4096 ++ msg.drop 8192) = msg := by
  have hd1 : (msg.drop 4096).length = 5904 := by rw [List.length_drop, hlen]
  have hd2 : (msg.drop 8192).length = 1808 := by rw [List.length_drop, hlen]
  have hdd : (msg.drop 4096).drop 4096 = msg.drop 8192 := by
    rw [List.drop_drop]
  refine ⟨?_, ?_, ?_, ?_, ?_⟩
  · rw [split_message, hlen]
    rw [show (10000 : Nat) + 1 = 9999 + 1 + 1 from rfl]
    rw [split_message_fuel_step_no_newline (9999 + 1) 4096 msg (by omega)
      (fun hm => hnl (List.take_subset _ _ hm))]
    rw [split_message_fuel_step_no_newline 9999 4096 (msg.drop 4096) (by omega)
      (fun hm => hnl (List.drop_subset _ _ (List.take_subset _ _ hm)))]
    rw [hdd]
    rw [show (9999 : Nat) = 9998 + 1 from rfl]
    rw [split_message_fuel_step_last 9998 4096 (msg.drop 8192)
      (by intro h; rw [h] at hd2; simp at hd2) (by omega)]
    rfl
  · rw [List.length_take]; omega
  · rw [List.length_take]; omega
  · omega
  · rw [← hdd, List.take_append_drop, List.take_append_drop]

/-- Witness for the three-chunk pagination at a concrete 10000-character
newline-free message. -/
theorem split_message_10000_three_chunks_witness :
    (List.replicate 10000 'a').length = 10000
      ∧ '\n' ∉ List.replicate 10000 'a'
      ∧ (split_message (List.replicate 10000 'a') 4096
            = some [(List.replicate 10000 'a').take 4096,
                ((List.replicate 10000 'a').drop 4096).take 4096,
                (List.replicate 10000 'a').drop 8192]
          ∧ ((List.replicate 10000 'a').take 4096).length ≤ 4096
          ∧ (((List.replicate 10000 'a').drop 4096).take 4096).length ≤ 4096
          ∧ ((List.replicate 10000 'a').drop 8192).length ≤ 4096
          ∧ (List.replicate 10000 'a').take 4096
              ++ (((List.replicate 10000 'a').drop 4096).take 4096
                ++ (List.replicate 10000 'a').drop 8192) = List.replicate 10000 'a') :=
  ⟨by rw [List.length_replicate], by rw [List.mem_replicate]; decide,
    split_message_10000_three_chunks (List.replicate 10000 'a')
      (by rw [List.length_replicate]) (by rw [List.mem_replicate]; decide)⟩

/-- C2 counterexample: a non-2xx status outside the 400-599 range (here
304) with a well-formed success body is NOT converted into the error
sentinel, because raise_for_status only raises for 4xx and 5xx codes; the
provider processes the body normally. -/
theorem omdb_non2xx_not_always_sentinel :
    get_recommendations_omdb (.response 304 (.parsed (JsonVal.obj
        [("Response", .str "True"),
         ("Search", .arr [.obj [("Title", .str "T"), ("Year", .str "2020")]])])))
        = .ok ("T (2020)", [])
      ∧ (304 < 200 ∨ 299 < 304)
      ∧ "T (2020)" ≠ errorSentinel :=
  ⟨rfl, by decide, by decide⟩

/-- C2 amended: every transport error, every HTTP status in the 400-599
range, and every malformed JSON body is converted by each of the three
providers into the fixed error sentinel with an empty media list, and no
exception escapes on those outcomes. -/
theorem provider_error_outcomes_yield_sentinel (o : HttpResult)
    (h : o = .transportError
      ∨ (∃ s b, o = .response s b ∧ 400 ≤ s ∧ s < 600)
      ∨ (∃ s, o = .response s .malformed)) :
    get_recommendations_omdb o = .ok (errorSentinel, [])
      ∧ get_recommendations_tmdb o = .ok (errorSentinel, [])
      ∧ get_recommendations_books o = .ok (errorSentinel, []) := by
  rcases h with h | ⟨s, b, rfl, h4, h6⟩ | ⟨s, rfl⟩
  · subst h
    exact ⟨rfl, rfl, rfl⟩
  · refine ⟨?_, ?_, ?_⟩ <;>
      simp only [get_recommendations_omdb, get_recommendations_tmdb,
        get_recommendations_books, if_pos (And.intro h4 h6)]
  · by_cases hc : 400 ≤ s ∧ s < 600
    · refine ⟨?_, ?_, ?_⟩ <;>
        simp only [get_recommendations_omdb, get_recommendations_tmdb,
          get_recommendations_books, if_pos hc]
    · refine ⟨?_, ?_, ?_⟩ <;>
        simp only [get_recommendations_omdb, get_recommendations_tmdb,
          get_recommendations_books, if_neg hc]

/-- Witness for the error-class sentinel theorem at the transport-error
outcome. -/
theorem provider_error_outcomes_yield_sentinel_witness :
    (HttpResult.transportError = HttpResult.transportError
      ∨ (∃ s b, HttpResult.transportError = HttpResult.response s b ∧ 400 ≤ s ∧ s < 600)
      ∨ (∃ s, HttpResult.transportError = HttpResult.response s .malformed))
    ∧ (get_recommendations_omdb .transportError = .ok (errorSentinel, [])
      ∧ get_recommendations_tmdb .transportError = .ok (errorSentinel, [])
      ∧ get_recommendations_books .transportError = .ok (errorSentinel, [])) :=
  ⟨Or.inl rfl, provider_error_outcomes_yield_sentinel .transportError (Or.inl rfl)⟩

/-- C7: a TMDb item of media_type tv with the name Foo and first air date
2020-05-01 produces the summary line with the series label, the name and
the year before the first dash (the source renders the label in Russian;
the specification translates it as Series:). -/
theorem tmdb_tv_item_summary_line :
    get_recommendations_tmdb (.response 200 (.parsed (JsonVal.obj
        [("results", .arr [JsonVal.obj
          [("media_type", JsonVal.str "tv"), ("name", JsonVal.str "Foo"),
           ("first_air_date", JsonVal.str "2020-05-01")]])])))
      = .ok ("Сериал: Foo (2020)", []) := rfl

/-- C9 counterexample: a TMDb response whose non-empty results list holds
only items of another media_type (here a person) makes the provider return
an EMPTY body text: the success branch is taken, no item matches movie or
tv, and the join of zero summary lines is the empty string. -/
theorem tmdb_person_results_empty_body :
    get_recommendations_tmdb (.response 200 (.parsed (JsonVal.obj
        [("results", .arr [JsonVal.obj [("media_type", JsonVal.str "person")]])])))
      = .ok ("", []) := rfl

/-- C6: when the trigger keyword is present but the query left after
removing it and stripping whitespace is empty, the handler answers with
the rephrase prompt, whatever the three provider outcomes would have been:
no provider result can influence (or is needed for) the reply. -/
theorem empty_query_rejected (msg : String)
    (htrig : containsSub recommendKeyword.data (pyLower msg).data = true)
    (hempty : pyStrip (pyReplace msg recommendKeyword "") = "") :
    ∀ o1 o2 o3, handle_message msg o1 o2 o3 = .ok .emptyQueryPrompt := by
  intro o1 o2 o3
  simp [handle_message, htrig, hempty]

/-- Witness for the empty-query rejection on the keyword followed only by
spaces (the spec's aggregate of a whitespace-only query). -/
theorem empty_query_rejected_witness :
    containsSub recommendKeyword.data (pyLower "рекомендации   ").data = true
      ∧ pyStrip (pyReplace "рекомендации   " recommendKeyword "") = ""
      ∧ handle_message "рекомендации   " .transportError .transportError .transportError
          = .ok .emptyQueryPrompt :=
  ⟨by decide, by decide,
    empty_query_rejected "рекомендации   " (by decide) (by decide)
      .transportError .transportError .transportError⟩

/-- C10: the trigger keyword is detected on the lowercased message but
removed from the original message case-sensitively, so a message carrying
the keyword only with a capital letter takes the recommendation path while
the query passed to every provider still contains the capitalised keyword
text unchanged. -/
theorem keyword_detected_lowercase_removed_case_sensitive :
    containsSub recommendKeyword.data "Рекомендации терминатор".data = false
      ∧ containsSub recommendKeyword.data (pyLower "Рекомендации терминатор").data = true
      ∧ pyReplace "Рекомендации терминатор" recommendKeyword "" = "Рекомендации терминатор"
      ∧ pyStrip (pyReplace "Рекомендации терминатор" recommendKeyword "")
          = "Рекомендации терминатор"
      ∧ handle_message "Рекомендации терминатор" .transportError .transportError .transportError
          = .ok (.recommendationReply "Рекомендации терминатор"
              (omdbLabel ++ "\n" ++ errorSentinel ++ "\n\n"
                ++ (tmdbLabel ++ "\n" ++ errorSentinel ++ "\n\n"
                  ++ (booksLabel ++ "\n" ++ errorSentinel ++ "\n\n"))) [])
      ∧ containsSub "Рекомендации".data "Рекомендации терминатор".data = true :=
  ⟨by decide, by decide, by decide, by decide, rfl, by decide⟩

/-- Appending anything to a non-empty string keeps it non-empty. -/
theorem append_ne_empty_left (a b : String) (ha : a ≠ "") : a ++ b ≠ "" := by
  intro h
  apply ha
  apply String.ext
  have hd := congrArg String.data h
  rw [String.data_append] at hd
  exact (List.append_eq_nil.mp hd).1

/-- Appending a non-empty string to anything gives a non-empty string. -/
theorem append_ne_empty_right (a b : String) (hb : b ≠ "") : a ++ b ≠ "" := by
  intro h
  apply hb
  apply String.ext
  have hd := congrArg String.data h
  rw [String.data_append] at hd
  exact (List.append_eq_nil.mp hd).2

/-- A join of a non-empty list of non-empty strings is non-empty. -/
theorem pyJoinSep_ne_empty (sep : String) :
    ∀ l : List String, l ≠ [] → (∀ r ∈ l, r ≠ "") → pyJoinSep sep l ≠ "" := by
  intro l
  match l with
  | [] => intro h _; exact absurd rfl h
  | [x] =>
    intro _ hr
    simpa [pyJoinSep] using hr x (by simp)
  | x :: y :: rest =>
    intro _ hr
    have hx : x ≠ "" := hr x (by simp)
    simpa [pyJoinSep] using append_ne_empty_left _ _ (append_ne_empty_left _ _ hx)

/-- Every summary line the OMDb loop emits is non-empty, and when no line
is emitted no media entry is emitted either (a media entry is only ever
appended next to its own summary line). -/
theorem omdb_items_loop_spec :
    ∀ (items : List JsonVal) (recs : List String) (media : List Media),
      omdb_items_loop items = .ok (recs, media) →
      (∀ r ∈ recs, r ≠ "") ∧ (recs = [] → media = []) := by
  intro items
  induction items with
  | nil =>
    intro recs media h
    simp [omdb_items_loop] at h
    obtain ⟨rfl, rfl⟩ := h
    simp
  | cons item rest ih =>
    intro recs media h
    simp only [omdb_items_loop] at h
    cases hT : pyGet item "Title" with
    | error e => rw [hT] at h; simp at h
    | ok titleOpt =>
      rw [hT] at h
      cases hY : pyGet item "Year" with
      | error e => rw [hY] at h; simp at h
      | ok yearOpt =>
        rw [hY] at h
        cases hP : pyGet item "Poster" with
        | error e => rw [hP] at h; simp at h
        | ok posterOpt =>
          rw [hP] at h
          cases hrec : omdb_items_loop rest with
          | error e => rw [hrec] at h; simp at h
          | ok pair =>
            obtain ⟨recs0, media0⟩ := pair
            rw [hrec] at h
            simp only [Except.ok.injEq, Prod.mk.injEq] at h
            obtain ⟨hrecs, hmedia⟩ := h
            subst hrecs
            constructor
            · intro r hr
              rcases List.mem_cons.mp hr with hr1 | hr2
              · rw [hr1]
                exact append_ne_empty_right _ _ (by decide)
              · exact (ih recs0 media0 hrec).1 r hr2
            · intro hnil
              simp at hnil

/-- Every summary line the TMDb loop emits is non-empty (each carries a
movie or series label), and when no line is emitted no media entry is
emitted either: skipped items of other media types contribute neither. -/
theorem tmdb_items_loop_spec :
    ∀ (items : List JsonVal) (recs : List String) (media : List Media),
      tmdb_items_loop items = .ok (recs, media) →
      (∀ r ∈ recs, r ≠ "") ∧ (recs = [] → media = []) := by
  intro items
  induction items with
  | nil =>
    intro recs media h
    simp [tmdb_items_loop] at h
    obtain ⟨rfl, rfl⟩ := h
    simp
  | cons item rest ih =>
    intro recs media h
    simp only [tmdb_items_loop] at h
    repeat' split at h
    all_goals try (exact ih _ _ h)
    all_goals try (exact Except.noConfusion h)
    all_goals injection h with h2
    all_goals (
      injection h2 with h3 h4
      subst h3
      subst h4
      rename_i recs0 media0 hrec hcond
      refine ⟨?_, ?_⟩
      · intro r hr
        rcases List.mem_cons.mp hr with hr1 | hr2
        · rw [hr1]
          exact append_ne_empty_right _ _ (by decide)
        · exact (ih recs0 media0 hrec).1 r hr2
      · intro hnil
        simp at hnil)

/-- Every summary line the Google Books loop emits is non-empty, no line
means no media, and the loop emits exactly one line per item. -/
theorem books_items_loop_spec :
    ∀ (items : List JsonVal) (recs : List String) (media : List Media),
      books_items_loop items = .ok (recs, media) →
      (∀ r ∈ recs, r ≠ "") ∧ (recs = [] → media = []) ∧ recs.length = items.length := by
  intro items
  induction items with
  | nil =>
    intro recs media h
    simp [books_items_loop] at h
    obtain ⟨rfl, rfl⟩ := h
    simp
  | cons item rest ih =>
    intro recs media h
    simp only [books_items_loop] at h
    repeat' split at h
    all_goals try (exact Except.noConfusion h)
    all_goals injection h with h2
    all_goals (
      injection h2 with h3 h4
      subst h3
      subst h4
      rename_i recs0 media0 hrec hcond
      refine ⟨?_, ?_, ?_⟩
      · intro r hr
        rcases List.mem_cons.mp hr with hr1 | hr2
        · rw [hr1]
          exact append_ne_empty_left _ _ (append_ne_empty_right _ _ (by decide))
        · exact (ih recs0 media0 hrec).1 r hr2
      · intro hnil
        simp at hnil
      · simp [(ih recs0 media0 hrec).2.2])

/-- Iterating a truthy JSON value, when it succeeds, yields at least one
element (a truthy string, list or dict is non-empty). -/
theorem pyIter_ne_nil_of_truthy (v : JsonVal) (l : List JsonVal)
    (ht : pyTruthyV v = true) (hi : pyIter v = .ok l) : l ≠ [] := by
  cases v with
  | null => simp [pyIter] at hi
  | bool b => simp [pyIter] at hi
  | num n => simp [pyIter] at hi
  | str s =>
    simp only [pyIter, Except.ok.injEq] at hi
    subst hi
    have hs : s ≠ "" := by simpa [pyTruthyV] using ht
    intro hl
    rw [List.map_eq_nil_iff] at hl
    exact hs (String.ext (by rw [hl]))
  | arr items =>
    simp only [pyIter, Except.ok.injEq] at hi
    subst hi
    intro hl
    rw [hl] at ht
    simp [pyTruthyV] at ht
  | obj fields =>
    simp only [pyIter, Except.ok.injEq] at hi
    subst hi
    intro hl
    rw [List.map_eq_nil_iff] at hl
    rw [hl] at ht
    simp [pyTruthyV] at ht

/-- When the OMDb provider returns an empty body text its media list is
empty as well. -/
theorem get_omdb_empty_body_no_media (o : HttpResult) (t : String) (m : List Media)
    (h : get_recommendations_omdb o = .ok (t, m)) (ht : t = "") : m = [] := by
  cases o with
  | transportError =>
    injection h with h2
    injection h2 with h3 h4
    exact h4.symm
  | response s b =>
    simp only [get_recommendations_omdb] at h
    split at h
    · injection h with h2
      injection h2 with h3 h4
      exact h4.symm
    · cases b with
      | malformed =>
        injection h with h2
        injection h2 with h3 h4
        exact h4.symm
      | parsed data =>
        repeat' split at h
        all_goals try (exact Except.noConfusion h)
        all_goals injection h with h2
        all_goals injection h2 with h3 h4
        all_goals try (exact h4.symm)
        rename_i xw recs0 media0 hloop
        subst h4
        rw [ht] at h3
        obtain ⟨hlines, hempty⟩ := omdb_items_loop_spec _ _ _ hloop
        by_cases hnil : recs0 = []
        · exact hempty hnil
        · exact absurd h3 (pyJoinSep_ne_empty "\n" recs0 hnil hlines)

/-- When the TMDb provider returns an empty body text its media list is
empty as well. -/
theorem get_tmdb_empty_body_no_media (o : HttpResult) (t : String) (m : List Media)
    (h : get_recommendations_tmdb o = .ok (t, m)) (ht : t = "") : m = [] := by
  cases o with
  | transportError =>
    injection h with h2
    injection h2 with h3 h4
    exact h4.symm
  | response s b =>
    simp only [get_recommendations_tmdb] at h
    split at h
    · injection h with h2
      injection h2 with h3 h4
      exact h4.symm
    · cases b with
      | malformed =>
        injection h with h2
        injection h2 with h3 h4
        exact h4.symm
      | parsed data =>
        repeat' split at h
        all_goals try (exact Except.noConfusion h)
        all_goals injection h with h2
        all_goals injection h2 with h3 h4
        all_goals try (exact h4.symm)
        rename_i xw recs0 media0 hloop
        subst h4
        rw [ht] at h3
        obtain ⟨hlines, hempty⟩ := tmdb_items_loop_spec _ _ _ hloop
        by_cases hnil : recs0 = []
        · exact hempty hnil
        · exact absurd h3 (pyJoinSep_ne_empty "\n" recs0 hnil hlines)

/-- When the Google Books provider returns an empty body text its media
list is empty as well. -/
theorem get_books_empty_body_no_media (o : HttpResult) (t : String) (m : List Media)
    (h : get_recommendations_books o = .ok (t, m)) (ht : t = "") : m = [] := by
  cases o with
  | transportError =>
    injection h with h2
    injection h2 with h3 h4
    exact h4.symm
  | response s b =>
    simp only [get_recommendations_books] at h
    split at h
    · injection h with h2
      injection h2 with h3 h4
      exact h4.symm
    · cases b with
      | malformed =>
        injection h with h2
        injection h2 with h3 h4
        exact h4.symm
      | parsed data =>
        repeat' split at h
        all_goals try (exact Except.noConfusion h)
        all_goals injection h with h2
        all_goals injection h2 with h3 h4
        all_goals try (exact h4.symm)
        rename_i xw recs0 media0 hloop
        subst h4
        rw [ht] at h3
        obtain ⟨hlines, hempty, hlen⟩ := books_items_loop_spec _ _ _ hloop
        by_cases hnil : recs0 = []
        · exact hempty hnil
        · exact absurd h3 (pyJoinSep_ne_empty "\n" recs0 hnil hlines)

/-- The Google Books provider never returns an empty body text: the error
and not-found sentinels are non-empty, and in the success branch the
truthy items field yields at least one item, hence at least one non-empty
summary line. -/
theorem get_books_body_ne_empty (o : HttpResult) (t : String) (m : List Media)
    (h : get_recommendations_books o = .ok (t, m)) : t ≠ "" := by
  cases o with
  | transportError =>
    injection h with h2
    injection h2 with h3 h4
    rw [← h3]
    decide
  | response s b =>
    simp only [get_recommendations_books] at h
    split at h
    · injection h with h2
      injection h2 with h3 h4
      rw [← h3]
      decide
    · cases b with
      | malformed =>
        injection h with h2
        injection h2 with h3 h4
        rw [← h3]
        decide
      | parsed data =>
        repeat' split at h
        all_goals try (exact Except.noConfusion h)
        all_goals injection h with h2
        all_goals injection h2 with h3 h4
        all_goals try (rw [← h3]; decide)
        rename_i x1 itemsOpt heqGet hTruthy x2 items0 heqIter x3 recs0 media0 heqLoop
        rw [← h3]
        obtain ⟨v, rfl⟩ : ∃ v, itemsOpt = some v := by
          cases itemsOpt with
          | none => simp [pyTruthy] at hTruthy
          | some v => exact ⟨v, rfl⟩
        have hv : pyTruthyV v = true := by simpa [pyTruthy] using hTruthy
        have hitems : items0 ≠ [] :=
          pyIter_ne_nil_of_truthy v items0 hv (by simpa using heqIter)
        obtain ⟨hlines, hempty, hlen⟩ := books_items_loop_spec _ _ _ heqLoop
        have hrne : recs0 ≠ [] := by
          intro hn
          rw [hn] at hlen
          simp at hlen
          exact hitems (List.length_eq_zero.mp hlen.symm)
        exact pyJoinSep_ne_empty "\n" recs0 hrne hlines

/-- C9 amended: the final nothing-found fallback branch of handle_message
is unreachable, but only because the books section is always non-empty:
whatever the message and the three provider outcomes, the handler never
replies with the noResults fallback (the OMDb and TMDb bodies alone CAN
be empty, see the person-results counterexample). -/
theorem no_results_fallback_unreachable (msg : String) (o1 o2 o3 : HttpResult) (q : String) :
    handle_message msg o1 o2 o3 ≠ .ok (.noResults q) := by
  intro h
  simp only [handle_message] at h
  by_cases htrig : containsSub recommendKeyword.data (pyLower msg).data = true
  · rw [if_pos htrig] at h
    by_cases hq : pyStrip (pyReplace msg recommendKeyword "") = ""
    · rw [if_pos hq] at h
      injection h with h2
      exact HandlerResult.noConfusion h2
    · rw [if_neg hq] at h
      cases ho1 : get_recommendations_omdb o1 with
      | error e =>
        rw [ho1] at h
        exact Except.noConfusion h
      | ok p1 =>
        obtain ⟨t1, m1⟩ := p1
        simp only [ho1] at h
        cases ho2 : get_recommendations_tmdb o2 with
        | error e =>
          rw [ho2] at h
          exact Except.noConfusion h
        | ok p2 =>
          obtain ⟨t2, m2⟩ := p2
          simp only [ho2] at h
          cases ho3 : get_recommendations_books o3 with
          | error e =>
            rw [ho3] at h
            exact Except.noConfusion h
          | ok p3 =>
            obtain ⟨t3, m3⟩ := p3
            simp only [ho3] at h
            have ht3 := get_books_body_ne_empty o3 t3 m3 ho3
            have hresp : (if t1 = "" then "" else omdbLabel ++ "\n" ++ t1 ++ "\n\n")
                ++ ((if t2 = "" then "" else tmdbLabel ++ "\n" ++ t2 ++ "\n\n")
                  ++ (if t3 = "" then "" else booksLabel ++ "\n" ++ t3 ++ "\n\n")) ≠ "" := by
              apply append_ne_empty_right
              apply append_ne_empty_right
              rw [if_neg ht3]
              exact append_ne_empty_right _ _ (by decide)
            rw [if_neg hresp] at h
            injection h with h2
            exact HandlerResult.noConfusion h2
  · rw [if_neg htrig] at h
    injection h with h2
    exact HandlerResult.noConfusion h2

/-- Witness-style concrete instance of the fallback unreachability. -/
theorem no_results_fallback_unreachable_witness :
    handle_message "рекомендации кино" .transportError .transportError .transportError
      ≠ .ok (.noResults "кино") :=
  no_results_fallback_unreachable "рекомендации кино"
    .transportError .transportError .transportError "кино"

/-- Splitting on a character never yields an empty list of segments. -/
theorem splitOnChar_ne_nil (sep : Char) : ∀ l : List Char, splitOnChar sep l ≠ [] := by
  intro l
  induction l with
  | nil => simp [splitOnChar]
  | cons c rest ih =>
    simp only [splitOnChar]
    cases h : splitOnChar sep rest with
    | nil => exact absurd h ih
    | cons l0 ls => by_cases hc : c = sep <;> simp [hc]

/-- Splitting a list that starts with the separator emits one empty
segment and splits the rest. -/
theorem splitOnChar_cons_self (sep : Char) (b : List Char) :
    splitOnChar sep (sep :: b) = [] :: splitOnChar sep b := by
  cases h : splitOnChar sep b with
  | nil => exact absurd h (splitOnChar_ne_nil sep b)
  | cons l0 ls => simp [splitOnChar, h]

/-- Splitting distributes over an explicit separator occurrence. -/
theorem splitOnChar_append_sep (sep : Char) (a b : List Char) :
    splitOnChar sep (a ++ sep :: b) = splitOnChar sep a ++ splitOnChar sep b := by
  induction a with
  | nil =>
    rw [List.nil_append, splitOnChar_cons_self]
    rfl
  | cons c a0 ih =>
    cases h : splitOnChar sep a0 with
    | nil => exact absurd h (splitOnChar_ne_nil sep a0)
    | cons l0 ls => by_cases hc : c = sep <;> simp [splitOnChar, ih, h, hc]

/-- A list without the separator is a single segment. -/
theorem splitOnChar_no_sep (sep : Char) : ∀ l : List Char, sep ∉ l → splitOnChar sep l = [l] := by
  intro l
  induction l with
  | nil => intro _; rfl
  | cons c rest ih =>
    intro h
    have hc : ¬c = sep := fun hcs => h (hcs ▸ List.mem_cons_self c rest)
    have hrest : sep ∉ rest := fun hm => h (List.mem_cons_of_mem c hm)
    simp [splitOnChar, ih hrest, hc]

/-- Occurrences of a fixed non-empty newline-free label among the lines of
the aggregate reply: each included section contributes its label line once
and, when no section body contains the label as a line, nothing else
contributes it. -/
theorem count_label_sectionsText (lab : List Char) (hne : lab ≠ []) :
    ∀ secs : List (String × String),
      (∀ p ∈ secs, '\n' ∉ p.1.data) →
      (∀ p ∈ secs, lab ∉ splitOnChar '\n' p.2.data) →
      List.count lab (splitOnChar '\n' (sectionsText secs))
        = List.countP (fun p => p.1.data == lab && !(p.2 == "")) secs := by
  intro secs
  induction secs with
  | nil =>
    intro _ _
    simp [sectionsText, splitOnChar, List.count_cons]
    exact hne
  | cons p rest ih =>
    obtain ⟨l, t⟩ := p
    intro h1 h2
    have h1l : '\n' ∉ l.data := h1 (l, t) (List.mem_cons_self _ _)
    have h2l : lab ∉ splitOnChar '\n' t.data := h2 (l, t) (List.mem_cons_self _ _)
    have h1r : ∀ q ∈ rest, '\n' ∉ q.1.data := fun q hq => h1 q (List.mem_cons_of_mem _ hq)
    have h2r : ∀ q ∈ rest, lab ∉ splitOnChar '\n' q.2.data :=
      fun q hq => h2 q (List.mem_cons_of_mem _ hq)
    by_cases ht : t = ""
    · simp only [sectionsText, if_pos ht]
      simp [ht, ih h1r h2r, List.countP_cons]
    · have hdata : sectionsText ((l, t) :: rest)
          = l.data ++ '\n' :: (t.data ++ '\n' :: ('\n' :: sectionsText rest)) := by
        simp [sectionsText, ht, String.data_append, List.append_assoc,
          show ("\n" : String).data = ['\n'] from rfl,
          show ("\n\n" : String).data = ['\n', '\n'] from rfl]
      rw [hdata, splitOnChar_append_sep, splitOnChar_no_sep '\n' l.data h1l,
        splitOnChar_append_sep, splitOnChar_cons_self]
      rw [List.count_append, List.count_append]
      simp only [List.count_cons, List.count_nil]
      rw [ih h1r h2r, List.count_eq_zero.mpr h2l]
      simp only [List.countP_cons]
      by_cases hl : l.data = lab
      all_goals simp [hl, ht, hne, Ne.symm hne]
      all_goals omega

/-- C5: for every message that takes the recommendation path with a
non-empty query, when the three providers return normally the reply's
media list is exactly the concatenation of the three providers' media
lists in provider order (OMDb, TMDb, books), and the reply text contains
each non-empty provider's label line exactly once (here under the sanity
hypothesis that no provider body itself carries a label as one of its
lines, which no real result listing does). -/
theorem aggregate_order_and_labels (msg : String) (o1 o2 o3 : HttpResult)
    (t1 t2 t3 : String) (m1 m2 m3 : List Media)
    (h1 : get_recommendations_omdb o1 = .ok (t1, m1))
    (h2 : get_recommendations_tmdb o2 = .ok (t2, m2))
    (h3 : get_recommendations_books o3 = .ok (t3, m3))
    (htrig : containsSub recommendKeyword.data (pyLower msg).data = true)
    (hq : pyStrip (pyReplace msg recommendKeyword "") ≠ "")
    (hlab : ∀ lab ∈ [omdbLabel, tmdbLabel, booksLabel], ∀ t ∈ [t1, t2, t3],
      lab.data ∉ splitOnChar '\n' t.data) :
    ∃ resp : String,
      handle_message msg o1 o2 o3
          = .ok (.recommendationReply (pyStrip (pyReplace msg recommendKeyword ""))
              resp (m1 ++ (m2 ++ m3)))
        ∧ List.count omdbLabel.data (splitOnChar '\n' resp.data)
            = (if t1 = "" then 0 else 1)
        ∧ List.count tmdbLabel.data (splitOnChar '\n' resp.data)
            = (if t2 = "" then 0 else 1)
        ∧ List.count booksLabel.data (splitOnChar '\n' resp.data)
            = (if t3 = "" then 0 else 1) := by
  have ht3 := get_books_body_ne_empty o3 t3 m3 h3
  have hEne : (if t1 = "" then "" else omdbLabel ++ "\n" ++ t1 ++ "\n\n")
      ++ ((if t2 = "" then "" else tmdbLabel ++ "\n" ++ t2 ++ "\n\n")
        ++ (if t3 = "" then "" else booksLabel ++ "\n" ++ t3 ++ "\n\n")) ≠ "" := by
    apply append_ne_empty_right
    apply append_ne_empty_right
    rw [if_neg ht3]
    exact append_ne_empty_right _ _ (by decide)
  have hM : (if t1 = "" then ([] : List Media) else m1)
      ++ ((if t2 = "" then [] else m2) ++ (if t3 = "" then [] else m3))
      = m1 ++ (m2 ++ m3) := by
    have e1 : (if t1 = "" then ([] : List Media) else m1) = m1 := by
      by_cases ht : t1 = ""
      · rw [if_pos ht, get_omdb_empty_body_no_media o1 t1 m1 h1 ht]
      · rw [if_neg ht]
    have e2 : (if t2 = "" then ([] : List Media) else m2) = m2 := by
      by_cases ht : t2 = ""
      · rw [if_pos ht, get_tmdb_empty_body_no_media o2 t2 m2 h2 ht]
      · rw [if_neg ht]
    have e3 : (if t3 = "" then ([] : List Media) else m3) = m3 := by
      by_cases ht : t3 = ""
      · rw [if_pos ht, get_books_empty_body_no_media o3 t3 m3 h3 ht]
      · rw [if_neg ht]
    rw [e1, e2, e3]
  have hsect : ((if t1 = "" then "" else omdbLabel ++ "\n" ++ t1 ++ "\n\n")
      ++ ((if t2 = "" then "" else tmdbLabel ++ "\n" ++ t2 ++ "\n\n")
        ++ (if t3 = "" then "" else booksLabel ++ "\n" ++ t3 ++ "\n\n"))).data
      = sectionsText [(omdbLabel, t1), (tmdbLabel, t2), (booksLabel, t3)] := by
    simp [sectionsText, String.data_append]
  have hnl : ∀ p ∈ [(omdbLabel, t1), (tmdbLabel, t2), (booksLabel, t3)], '\n' ∉ p.1.data := by
    intro p hp
    simp at hp
    rcases hp with rfl | rfl | rfl <;>
      first
      | exact (by decide : '\n' ∉ omdbLabel.data)
      | exact (by decide : '\n' ∉ tmdbLabel.data)
      | exact (by decide : '\n' ∉ booksLabel.data)
  have hbody : ∀ lab ∈ [omdbLabel, tmdbLabel, booksLabel],
      ∀ p ∈ [(omdbLabel, t1), (tmdbLabel, t2), (booksLabel, t3)],
        lab.data ∉ splitOnChar '\n' p.2.data := by
    intro lab hl p hp
    simp at hp
    rcases hp with rfl | rfl | rfl
    · exact hlab lab hl t1 (by simp)
    · exact hlab lab hl t2 (by simp)
    · exact hlab lab hl t3 (by simp)
  refine ⟨(if t1 = "" then "" else omdbLabel ++ "\n" ++ t1 ++ "\n\n")
    ++ ((if t2 = "" then "" else tmdbLabel ++ "\n" ++ t2 ++ "\n\n")
      ++ (if t3 = "" then "" else booksLabel ++ "\n" ++ t3 ++ "\n\n")), ?_, ?_, ?_, ?_⟩
  · simp only [handle_message]
    rw [if_pos htrig, if_neg hq]
    simp only [h1, h2, h3]
    rw [if_neg hEne, hM]
  · rw [hsect, count_label_sectionsText omdbLabel.data (by decide) _ hnl
      (hbody omdbLabel (by simp))]
    simp only [List.countP_cons, List.countP_nil]
    rw [(by decide : (omdbLabel.data == omdbLabel.data) = true),
      (by decide : (tmdbLabel.data == omdbLabel.data) = false),
      (by decide : (booksLabel.data == omdbLabel.data) = false)]
    by_cases ht : t1 = "" <;> simp [ht]
  · rw [hsect, count_label_sectionsText tmdbLabel.data (by decide) _ hnl
      (hbody tmdbLabel (by simp))]
    simp only [List.countP_cons, List.countP_nil]
    rw [(by decide : (omdbLabel.data == tmdbLabel.data) = false),
      (by decide : (tmdbLabel.data == tmdbLabel.data) = true),
      (by decide : (booksLabel.data == tmdbLabel.data) = false)]
    by_cases ht : t2 = "" <;> simp [ht]
  · rw [hsect, count_label_sectionsText booksLabel.data (by decide) _ hnl
      (hbody booksLabel (by simp))]
    simp only [List.countP_cons, List.countP_nil]
    rw [(by decide : (omdbLabel.data == booksLabel.data) = false),
      (by decide : (tmdbLabel.data == booksLabel.data) = false),
      (by decide : (booksLabel.data == booksLabel.data) = true)]
    by_cases ht : t3 = "" <;> simp [ht]

/-- Witness for the aggregation theorem: one OMDb result with a poster, a
TMDb transport error, and a books response with no items. -/
theorem aggregate_order_and_labels_witness :
    (get_recommendations_omdb (.response 200 (.parsed (JsonVal.obj
          [("Response", .str "True"),
           ("Search", .arr [.obj [("Title", .str "T"), ("Year", .str "2020"),
             ("Poster", .str "http://p")]])])))
        = .ok ("T (2020)", [(JsonVal.str "http://p", "T (2020)")])
      ∧ get_recommendations_tmdb .transportError = .ok (errorSentinel, [])
      ∧ get_recommendations_books (.response 200 (.parsed (JsonVal.obj [])))
        = .ok (notFoundSentinel, [])
      ∧ containsSub recommendKeyword.data (pyLower "рекомендации тест").data = true
      ∧ pyStrip (pyReplace "рекомендации тест" recommendKeyword "") ≠ ""
      ∧ (∀ lab ∈ [omdbLabel, tmdbLabel, booksLabel],
          ∀ t ∈ ["T (2020)", errorSentinel, notFoundSentinel],
            lab.data ∉ splitOnChar '\n' t.data))
    ∧ (∃ resp : String,
        handle_message "рекомендации тест"
            (.response 200 (.parsed (JsonVal.obj
              [("Response", .str "True"),
               ("Search", .arr [.obj [("Title", .str "T"), ("Year", .str "2020"),
                 ("Poster", .str "http://p")]])])))
            .transportError
            (.response 200 (.parsed (JsonVal.obj [])))
            = .ok (.recommendationReply
                (pyStrip (pyReplace "рекомендации тест" recommendKeyword ""))
                resp ([(JsonVal.str "http://p", "T (2020)")] ++ ([] ++ [])))
          ∧ List.count omdbLabel.data (splitOnChar '\n' resp.data)
              = (if "T (2020)" = "" then 0 else 1)
          ∧ List.count tmdbLabel.data (splitOnChar '\n' resp.data)
              = (if errorSentinel = "" then 0 else 1)
          ∧ List.count booksLabel.data (splitOnChar '\n' resp.data)
              = (if notFoundSentinel = "" then 0 else 1)) :=
  ⟨⟨rfl, rfl, rfl, by decide, by decide, by decide⟩,
    aggregate_order_and_labels "рекомендации тест"
      (.response 200 (.parsed (JsonVal.obj
        [("Response", .str "True"),
         ("Search", .arr [.obj [("Title", .str "T"), ("Year", .str "2020"),
           ("Poster", .str "http://p")]])])))
      .transportError
      (.response 200 (.parsed (JsonVal.obj [])))
      "T (2020)" errorSentinel notFoundSentinel
      [(JsonVal.str "http://p", "T (2020)")] [] []
      rfl rfl rfl (by decide) (by decide) (by decide)⟩
